import Mathlib

/-!
# Credit Ledger Service: shallow embedding and verification

Shallow embedding of the two copies of `deduct_ficore_credits` from
`src/personal_finance/budget/budget.py` (lines 56-164) and
`src/personal_finance/shopping/shopping.py` (lines 49-219).

Modelling choices:
* Numeric values (`ficore_credit_balance`, `amount`) are Python floats in the
  source; they are modelled as `Rat`, exact for every value the routines
  manipulate (the routines only compare and subtract).
* The document store is a record `DB` of the three collections the routines
  touch: `users` (an association list `_id -> ficore_credit_balance`),
  `ficore_credit_transactions` (`ledger`) and `audit_logs` (`audit`).
  `_id` (a random ObjectId) and `timestamp` (the clock collaborator) are
  omitted from the embedded documents: both come from external collaborators
  and no claim mentions them.
* A MongoDB transaction is modelled by running the body as a pure function
  returning `Except (PyErr × DB) DB`: on `ok` the produced state is committed,
  on `error` the whole buffered state (carried in the error for inspection) is
  discarded, which is the abort semantics of the underlying store.
* The storage layer is an external collaborator; its behaviour during one
  transaction attempt is an oracle value `StorageBehavior`: `normal` (every
  storage call succeeds, the update matches per the current state), `vanished`
  (the narrow race of the spec: the decrement matches zero documents because a
  concurrent writer changed the user), and four exception classes matching the
  source's `except` handlers.  The shopping copy, which has a retry loop,
  receives one behaviour per attempt (`Nat → StorageBehavior`).
* The shopping copy is modelled on its default path `mongo_session=None`
  (the function owns the session, starts the transaction and commits it);
  with a caller-supplied session the source defers transactionality to the
  caller (`nullcontext`), which is outside the scope of these claims.
* On that owned-session path the retry loop's `finally` block ends the
  session on every iteration — including on the `continue` taken after a
  transient error — so a retried iteration calls `start_transaction` on an
  ended session, which the driver rejects with `InvalidOperation`, a
  `PyMongoError`, and the handler returns `False`.  The loop is therefore
  embedded with an explicit `ended` flag: a retried attempt (flag set) fails
  immediately, and only the first attempt can ever commit.
* The source catches every exception at top level and returns a boolean, so
  the embedded functions are total, returning `Bool × DB` (result, new state).
-/

namespace FicoreCredits

/-- Status of a ledger entry (`status` field, `completed` or `failed`). -/
inductive LStatus
  | completed
  | failed
deriving DecidableEq, Repr

/-- A document of `ficore_credit_transactions` as built by either copy of
`deduct_ficore_credits`.  `ref_id` embeds `budget_id` (budget copy) or
`item_id` (shopping copy), already stringified; `amount` is the signed float
`float(-amount)` of the source. -/
structure LedgerEntry where
  user_id : String
  action : String
  amount : Rat
  ref_id : Option String
  session_id : String
  status : LStatus
deriving DecidableEq, Repr

/-- A document of `audit_logs` as built by either copy: `admin_id='system'`,
`action='deduct_ficore_credits_' + action`, and the `details` sub-document
flattened into the fields `user_id`, `amount` (positive), `ref_id`,
`previous_balance`, `new_balance`. -/
structure AuditEntry where
  admin_id : String
  action : String
  user_id : String
  amount : Rat
  ref_id : Option String
  previous_balance : Rat
  new_balance : Rat
deriving DecidableEq, Repr

/-- The state of the three collections the deduction routines touch. -/
structure DB where
  users : List (String × Rat)
  ledger : List LedgerEntry
  audit : List AuditEntry
deriving DecidableEq, Repr

/-- Oracle describing what the storage layer does during one transaction
attempt.  `normal`: all storage calls succeed and the update matches according
to the current state.  `vanished`: the decrement matches zero documents
(`modified_count == 0`), the race window called out by the spec.  The other
four are the exception classes the source's handlers distinguish:
`transient` raises `OperationFailure` carrying the `TransientTransactionError`
label, `opFailure` raises `OperationFailure` without it, `dbError` raises a
`PyMongoError`, `unexpected` raises any other `Exception`. -/
inductive StorageBehavior
  | normal
  | vanished
  | transient
  | opFailure
  | dbError
  | unexpected
deriving DecidableEq, Repr

/-- The Python exception classes that can escape a transaction attempt,
as distinguished by the source's `except` clauses. -/
inductive PyErr
  | valueError
  | transientOpFailure
  | permOpFailure
  | pymongoError
  | otherError
deriving DecidableEq, Repr

/-- `db.users.find_one({'_id': user_id})`, reading the
`ficore_credit_balance` field: first association-list hit. -/
def findBalance : List (String × Rat) → String → Option Rat
  | [], _ => none
  | (k, v) :: rest, uid => if k = uid then some v else findBalance rest uid

/-- Apply a balance delta to every record of the given user (the `_id` key is
unique in MongoDB, so at most one record is concerned in practice). -/
def incAll : List (String × Rat) → String → Rat → List (String × Rat)
  | [], _, _ => []
  | (k, v) :: rest, uid, d => (k, if k = uid then v + d else v) :: incAll rest uid d

/-- `db.users.update_one({'_id': user_id}, <decrement by -d>)`: returns the new
collection and `modified_count` (1 iff a document matched; the delta is always
nonzero where this is called, so a matched document is always modified). -/
def incBalance (users : List (String × Rat)) (uid : String) (d : Rat) :
    List (String × Rat) × Nat :=
  match findBalance users uid with
  | some _ => (incAll users uid d, 1)
  | none => (users, 0)

/-- Python's `int()` applied to a numeric value: truncation toward zero
(`int(1.5) == 1`, `int(-1.5) == -1`). -/
def pyInt (q : Rat) : Int :=
  q.num.tdiv q.den

/-- The ledger document inserted by either copy (source: the dict passed to
`db.ficore_credit_transactions.insert_one`, minus `_id` and `timestamp`). -/
def mkLedger (uid act : String) (amt : Rat) (ref : Option String) (sid : String)
    (st : LStatus) : LedgerEntry :=
  { user_id := uid, action := act, amount := amt, ref_id := ref,
    session_id := sid, status := st }

/-- The audit document inserted by either copy (source: the dict passed to
`db.audit_logs.insert_one`, minus `timestamp`); `new_balance` is computed as
`current_balance - amount` exactly as in the source. -/
def mkAudit (uid act : String) (amt : Rat) (ref : Option String) (prev : Rat) :
    AuditEntry :=
  { admin_id := "system", action := "deduct_ficore_credits_" ++ act,
    user_id := uid, amount := amt, ref_id := ref,
    previous_balance := prev, new_balance := prev - amt }

/-- Body of the budget copy's transaction block (budget.py lines 100-155):
`$inc` decrement, then on `modified_count == 0` insert a `failed` ledger entry
and raise `ValueError` (aborting the transaction: the buffered state is carried
in the error and discarded by the caller); otherwise insert the `completed`
ledger entry and the audit entry and commit.  A storage exception anywhere in
the block aborts with the corresponding error class. -/
def budget_txBody (db : DB) (uid : String) (amt : Rat) (act : String)
    (bid : Option String) (sid : String) (beh : StorageBehavior) :
    Except (PyErr × DB) DB :=
  match beh with
  | .normal =>
    let r := incBalance db.users uid (-amt)
    if r.2 = 0 then
      .error (.valueError,
        { db with users := r.1,
                  ledger := db.ledger ++ [mkLedger uid act (-amt) bid sid .failed] })
    else
      .ok { users := r.1,
            ledger := db.ledger ++ [mkLedger uid act (-amt) bid sid .completed],
            audit := db.audit ++ [mkAudit uid act amt bid
              ((findBalance db.users uid).getD 0)] }
  | .vanished =>
    .error (.valueError,
      { db with ledger := db.ledger ++ [mkLedger uid act (-amt) bid sid .failed] })
  | .transient => .error (.transientOpFailure, db)
  | .opFailure => .error (.permOpFailure, db)
  | .dbError => .error (.pymongoError, db)
  | .unexpected => .error (.otherError, db)

/-- The budget copy of `deduct_ficore_credits` (budget.py lines 56-164):
validate `user_id` non-empty and `amount > 0`, look the user up, check the
balance, then run one transaction attempt; every exception is caught at top
level and turned into `False`, so an aborted transaction leaves the store
unchanged.  No retry loop in this copy. -/
def budget_deduct (db : DB) (uid : String) (amt : Rat) (act : String)
    (bid : Option String) (sid : String) (beh : StorageBehavior) : Bool × DB :=
  if uid = "" then (false, db)
  else if amt ≤ 0 then (false, db)
  else
    match findBalance db.users uid with
    | none => (false, db)
    | some current_balance =>
      if current_balance < amt then (false, db)
      else
        match budget_txBody db uid amt act bid sid beh with
        | .ok db2 => (true, db2)
        | .error _ => (false, db)

/-- Body of the shopping copy's transaction block (shopping.py lines 104-164):
aggregation-pipeline decrement (`$subtract`), same `modified_count == 0`
handling, then the `completed` ledger entry and the audit entry; `amt` is the
already-truncated integer amount. -/
def shopping_txBody (db : DB) (uid : String) (amt : Int) (act : String)
    (iid : Option String) (sid : String) (beh : StorageBehavior) :
    Except (PyErr × DB) DB :=
  match beh with
  | .normal =>
    let r := incBalance db.users uid (-(amt : Rat))
    if r.2 = 0 then
      .error (.valueError,
        { db with users := r.1,
                  ledger := db.ledger ++ [mkLedger uid act (-(amt : Rat)) iid sid .failed] })
    else
      .ok { users := r.1,
            ledger := db.ledger ++ [mkLedger uid act (-(amt : Rat)) iid sid .completed],
            audit := db.audit ++ [mkAudit uid act (amt : Rat) iid
              ((findBalance db.users uid).getD 0)] }
  | .vanished =>
    .error (.valueError,
      { db with ledger := db.ledger ++ [mkLedger uid act (-(amt : Rat)) iid sid .failed] })
  | .transient => .error (.transientOpFailure, db)
  | .opFailure => .error (.permOpFailure, db)
  | .dbError => .error (.pymongoError, db)
  | .unexpected => .error (.otherError, db)

/-- `max_retries = 3` of the shopping copy. -/
def max_retries : Nat := 3

/-- The shopping copy's `for attempt in range(max_retries)` loop (shopping.py
lines 102-212), on the owned-session path: each iteration first calls
`session_to_use.start_transaction()`; `ended` records whether the loop's
`finally` block (lines 203-208) has already ended the owned session — it runs
on every iteration, including on the `continue` taken after a transient
error, so on a retried iteration `start_transaction` raises
`InvalidOperation`, a `PyMongoError`, whose handler returns `False` at once.
Otherwise the iteration runs one transaction attempt: a commit returns
`True`; an `OperationFailure` carrying the transient label takes `continue`
(ending the session) while `attempt < max_retries - 1` and otherwise returns
`False`; every other exception class aborts and returns `False` at once.
`rem` is the number of loop iterations left (`range` semantics); exhausting
the loop returns `False`. -/
def shopping_tryAttempts (db : DB) (uid : String) (amt : Int) (act : String)
    (iid : Option String) (sid : String) (beh : Nat → StorageBehavior) :
    Bool → Nat → Nat → Bool × DB
  | _, _, 0 => (false, db)
  | ended, attempt, rem + 1 =>
    if ended then (false, db)
    else
      match shopping_txBody db uid amt act iid sid (beh attempt) with
      | .ok db2 => (true, db2)
      | .error (.transientOpFailure, _) =>
        if attempt < max_retries - 1 then
          shopping_tryAttempts db uid amt act iid sid beh true (attempt + 1) rem
        else (false, db)
      | .error _ => (false, db)

/-- The shopping copy of `deduct_ficore_credits` (shopping.py lines 49-219),
on its default `mongo_session=None` path: `amount = int(amount)` first, the
truncated amount must be 1 or 2, then `user_id` non-empty, user lookup, balance
check against the truncated amount, then the retry loop.  Every exception is
caught and turned into `False`. -/
def shopping_deduct (db : DB) (uid : String) (amt : Rat) (act : String)
    (iid : Option String) (sid : String) (beh : Nat → StorageBehavior) : Bool × DB :=
  let amtI := pyInt amt
  if ¬(amtI = 1 ∨ amtI = 2) then (false, db)
  else if uid = "" then (false, db)
  else
    match findBalance db.users uid with
    | none => (false, db)
    | some current_balance =>
      if current_balance < (amtI : Rat) then (false, db)
      else shopping_tryAttempts db uid amtI act iid sid beh false 0 max_retries

/-- The store state after a successful budget deduction from balance `cb`:
decremented balance, one `completed` ledger entry, one audit entry. -/
def budgetSuccessDB (db : DB) (uid : String) (amt : Rat) (act : String)
    (bid : Option String) (sid : String) (cb : Rat) : DB :=
  { users := incAll db.users uid (-amt),
    ledger := db.ledger ++ [mkLedger uid act (-amt) bid sid .completed],
    audit := db.audit ++ [mkAudit uid act amt bid cb] }

/-- The store state after a successful shopping deduction of the truncated
integer amount `amt` from balance `cb`. -/
def shoppingSuccessDB (db : DB) (uid : String) (amt : Int) (act : String)
    (iid : Option String) (sid : String) (cb : Rat) : DB :=
  { users := incAll db.users uid (-(amt : Rat)),
    ledger := db.ledger ++ [mkLedger uid act (-(amt : Rat)) iid sid .completed],
    audit := db.audit ++ [mkAudit uid act (amt : Rat) iid cb] }

/-- One call to either copy of `deduct_ficore_credits`, with its arguments and
its storage-behaviour oracle. -/
inductive DeductCall
  | budget (uid : String) (amt : Rat) (act : String) (bid : Option String)
      (sid : String) (beh : StorageBehavior)
  | shopping (uid : String) (amt : Rat) (act : String) (iid : Option String)
      (sid : String) (beh : Nat → StorageBehavior)

/-- The store state after one call. -/
def applyCall (db : DB) : DeductCall → DB
  | .budget uid amt act bid sid beh => (budget_deduct db uid amt act bid sid beh).2
  | .shopping uid amt act iid sid beh => (shopping_deduct db uid amt act iid sid beh).2

/-- Sequential execution of a list of deduction calls. -/
def runCalls (db : DB) : List DeductCall → DB
  | [] => db
  | c :: cs => runCalls (applyCall db c) cs

/-! ## Helper lemmas about the store primitives -/

theorem findBalance_incAll_self (users : List (String × Rat)) (uid : String)
    (d cb : Rat) (h : findBalance users uid = some cb) :
    findBalance (incAll users uid d) uid = some (cb + d) := by
  induction users with
  | nil => simp [findBalance] at h
  | cons p rest ih =>
    obtain ⟨k, v⟩ := p
    by_cases hk : k = uid
    · subst hk
      simp [findBalance] at h
      simp [findBalance, incAll, h]
    · simp [findBalance, incAll, hk] at h ⊢
      exact ih h

theorem findBalance_incAll_ne (users : List (String × Rat)) (uid u : String)
    (d : Rat) (hne : u ≠ uid) :
    findBalance (incAll users uid d) u = findBalance users u := by
  induction users with
  | nil => simp [incAll]
  | cons p rest ih =>
    obtain ⟨k, v⟩ := p
    by_cases hk : k = u
    · subst hk
      simp [findBalance, incAll, hne, Ne.symm hne, ih]
    · simp [findBalance, incAll, hk, ih]

theorem incBalance_of_find (users : List (String × Rat)) (uid : String)
    (d cb : Rat) (h : findBalance users uid = some cb) :
    incBalance users uid d = (incAll users uid d, 1) := by
  simp [incBalance, h]

/-- Master characterization of the budget copy: every run either returns
`false` leaving the store untouched, or the preconditions held, the storage
behaved normally, and the run returns `true` with exactly the three writes. -/
theorem budget_deduct_cases (db : DB) (uid : String) (amt : Rat) (act : String)
    (bid : Option String) (sid : String) (beh : StorageBehavior) :
    budget_deduct db uid amt act bid sid beh = (false, db) ∨
    (∃ cb, findBalance db.users uid = some cb ∧ uid ≠ "" ∧ 0 < amt ∧ amt ≤ cb ∧
      beh = .normal ∧
      budget_deduct db uid amt act bid sid beh =
        (true, budgetSuccessDB db uid amt act bid sid cb)) := by
  by_cases h1 : uid = ""
  · left; simp [budget_deduct, h1]
  · by_cases h2 : amt ≤ 0
    · left; simp [budget_deduct, h1, h2]
    · cases hf : findBalance db.users uid with
      | none => left; simp [budget_deduct, h1, h2, hf]
      | some cb =>
        by_cases h4 : cb < amt
        · left; simp [budget_deduct, h1, h2, hf, h4]
        · cases beh with
          | normal =>
            right
            refine ⟨cb, rfl, h1, by linarith, by linarith, rfl, ?_⟩
            simp [budget_deduct, h1, h2, hf, h4, budget_txBody,
              incBalance_of_find db.users uid (-amt) cb hf, budgetSuccessDB]
          | vanished => left; simp [budget_deduct, h1, h2, hf, h4, budget_txBody]
          | transient => left; simp [budget_deduct, h1, h2, hf, h4, budget_txBody]
          | opFailure => left; simp [budget_deduct, h1, h2, hf, h4, budget_txBody]
          | dbError => left; simp [budget_deduct, h1, h2, hf, h4, budget_txBody]
          | unexpected => left; simp [budget_deduct, h1, h2, hf, h4, budget_txBody]

/-- The shopping retry loop, characterized: with the user present, the loop
commits exactly when the first attempt's storage behaviour is `normal`, and
then performs the three writes; otherwise the store is left untouched — a
transient error on the first attempt leads to a retry iteration whose session
was already ended, which fails at `start_transaction`, so no later attempt
can commit. -/
theorem shopping_tryAttempts_eq (db : DB) (uid : String) (amtI : Int)
    (act : String) (iid : Option String) (sid : String) (cb : Rat)
    (beh : Nat → StorageBehavior) (hf : findBalance db.users uid = some cb) :
    shopping_tryAttempts db uid amtI act iid sid beh false 0 max_retries =
      if beh 0 = .normal
      then (true, shoppingSuccessDB db uid amtI act iid sid cb)
      else (false, db) := by
  have hinc := incBalance_of_find db.users uid (-(amtI : Rat)) cb hf
  cases h0 : beh 0 <;>
    simp [shopping_tryAttempts, shopping_txBody, max_retries,
      h0, hinc, hf, shoppingSuccessDB]

/-- Master characterization of the shopping copy: every run either returns
`false` leaving the store untouched, or the preconditions held (with the
truncated amount), the first attempt committed, and the run returns `true`
with exactly the three writes for the truncated amount. -/
theorem shopping_deduct_cases (db : DB) (uid : String) (amt : Rat) (act : String)
    (iid : Option String) (sid : String) (beh : Nat → StorageBehavior) :
    shopping_deduct db uid amt act iid sid beh = (false, db) ∨
    (∃ cb, findBalance db.users uid = some cb ∧
      (pyInt amt = 1 ∨ pyInt amt = 2) ∧ uid ≠ "" ∧ ((pyInt amt : Int) : Rat) ≤ cb ∧
      beh 0 = .normal ∧
      shopping_deduct db uid amt act iid sid beh =
        (true, shoppingSuccessDB db uid (pyInt amt) act iid sid cb)) := by
  by_cases h1 : pyInt amt = 1 ∨ pyInt amt = 2
  · by_cases h2 : uid = ""
    · left; simp [shopping_deduct, h2]
    · cases hf : findBalance db.users uid with
      | none => left; simp [shopping_deduct, h1, h2, hf]
      | some cb =>
        by_cases h4 : cb < (pyInt amt : Rat)
        · left; simp [shopping_deduct, h1, h2, hf, h4]
        · by_cases h5 : beh 0 = .normal
          · right
            refine ⟨cb, rfl, h1, h2, by linarith, h5, ?_⟩
            simp [shopping_deduct, h1, h2, hf, h4,
              shopping_tryAttempts_eq db uid (pyInt amt) act iid sid cb beh hf, h5]
          · left
            simp [shopping_deduct, h1, h2, hf, h4,
              shopping_tryAttempts_eq db uid (pyInt amt) act iid sid cb beh hf, h5]
  · left; simp [shopping_deduct, h1]

/-- Python's `int()` of a nonpositive number is nonpositive. -/
theorem pyInt_nonpos (q : Rat) (h : q ≤ 0) : pyInt q ≤ 0 := by
  have hn : q.num ≤ 0 := Rat.num_nonpos.mpr h
  have hd : (0 : Int) ≤ (q.den : Int) := Int.ofNat_nonneg q.den
  have h2 : (0 : Int) ≤ (-q.num).tdiv q.den := Int.tdiv_nonneg (by omega) hd
  have h3 : (-q.num).tdiv q.den = -(q.num.tdiv q.den) := Int.neg_tdiv q.num q.den
  simp only [pyInt]
  omega

/-- The budget copy on the happy path: preconditions met, storage normal. -/
theorem budget_deduct_success (db : DB) (uid : String) (amt : Rat) (act : String)
    (bid : Option String) (sid : String) (cb : Rat)
    (h1 : uid ≠ "") (h2 : 0 < amt) (hf : findBalance db.users uid = some cb)
    (h4 : amt ≤ cb) :
    budget_deduct db uid amt act bid sid .normal =
      (true, budgetSuccessDB db uid amt act bid sid cb) := by
  have h2' : ¬amt ≤ 0 := not_le.mpr h2
  have h4' : ¬cb < amt := not_lt.mpr h4
  simp [budget_deduct, h1, h2', hf, h4', budget_txBody,
    incBalance_of_find db.users uid (-amt) cb hf, budgetSuccessDB]

/-- The shopping copy on the happy path: preconditions met (for the truncated
amount), storage behaving normally on the first attempt — the only attempt
that can commit. -/
theorem shopping_deduct_success (db : DB) (uid : String) (amt : Rat) (act : String)
    (iid : Option String) (sid : String) (cb : Rat) (beh : Nat → StorageBehavior)
    (h1 : pyInt amt = 1 ∨ pyInt amt = 2) (h2 : uid ≠ "")
    (hf : findBalance db.users uid = some cb) (h4 : ((pyInt amt : Int) : Rat) ≤ cb)
    (h5 : beh 0 = .normal) :
    shopping_deduct db uid amt act iid sid beh =
      (true, shoppingSuccessDB db uid (pyInt amt) act iid sid cb) := by
  have h4' : ¬cb < ((pyInt amt : Int) : Rat) := not_lt.mpr h4
  simp [shopping_deduct, h1, h2, hf, h4',
    shopping_tryAttempts_eq db uid (pyInt amt) act iid sid cb beh hf, h5]

/-- Balance of the deducted user after a successful budget deduction. -/
theorem budgetSuccessDB_balance (db : DB) (uid : String) (amt : Rat) (act : String)
    (bid : Option String) (sid : String) (cb : Rat)
    (hf : findBalance db.users uid = some cb) :
    findBalance (budgetSuccessDB db uid amt act bid sid cb).users uid =
      some (cb - amt) := by
  have := findBalance_incAll_self db.users uid (-amt) cb hf
  simpa [budgetSuccessDB, sub_eq_add_neg] using this

/-- Balance of the deducted user after a successful shopping deduction. -/
theorem shoppingSuccessDB_balance (db : DB) (uid : String) (amt : Int) (act : String)
    (iid : Option String) (sid : String) (cb : Rat)
    (hf : findBalance db.users uid = some cb) :
    findBalance (shoppingSuccessDB db uid amt act iid sid cb).users uid =
      some (cb - (amt : Rat)) := by
  have := findBalance_incAll_self db.users uid (-(amt : Rat)) cb hf
  simpa [shoppingSuccessDB, sub_eq_add_neg] using this

/-! ## Concrete stores used by witnesses and counterexamples -/

/-- A store with a single user `u1` holding 5 credits. -/
def exDB : DB := { users := [("u1", 5)], ledger := [], audit := [] }

/-- A store with a single user `u1` holding 2.2 credits (`11/5`). -/
def exDB2 : DB := { users := [("u1", 11/5)], ledger := [], audit := [] }

/-- A store with a single user `u2` holding 7 credits. -/
def exDB3 : DB := { users := [("u2", 7)], ledger := [], audit := [] }

/-- A store with a single user `u9` holding 5 credits. -/
def exDB9 : DB := { users := [("u9", 5)], ledger := [], audit := [] }

/-! ## Claims -/

/-- C1: in both copies of `deduct_ficore_credits`, the balance decrement, the
ledger insert and the audit insert happen inside one storage transaction:
every run either leaves the store exactly as it was (and returns `false`), or
returns `true` with exactly the three writes visible; no partial subset of the
three writes can persist. -/
theorem claim_C1_atomic_all_or_nothing (db : DB) (uid : String) (amt : Rat)
    (act : String) (rid : Option String) (sid : String)
    (beh : StorageBehavior) (behs : Nat → StorageBehavior) :
    (budget_deduct db uid amt act rid sid beh = (false, db) ∨
      ∃ cb, findBalance db.users uid = some cb ∧
        budget_deduct db uid amt act rid sid beh =
          (true, { users := incAll db.users uid (-amt),
                   ledger := db.ledger ++ [mkLedger uid act (-amt) rid sid .completed],
                   audit := db.audit ++ [mkAudit uid act amt rid cb] })) ∧
    (shopping_deduct db uid amt act rid sid behs = (false, db) ∨
      ∃ cb, findBalance db.users uid = some cb ∧
        shopping_deduct db uid amt act rid sid behs =
          (true, { users := incAll db.users uid (-((pyInt amt : Int) : Rat)),
                   ledger := db.ledger ++
                     [mkLedger uid act (-((pyInt amt : Int) : Rat)) rid sid .completed],
                   audit := db.audit ++
                     [mkAudit uid act ((pyInt amt : Int) : Rat) rid cb] })) := by
  constructor
  · obtain hb | ⟨cb, hfb, _, _, _, _, hb⟩ := budget_deduct_cases db uid amt act rid sid beh
    · exact .inl hb
    · exact .inr ⟨cb, hfb, by rw [hb]; rfl⟩
  · obtain hs | ⟨cb, hfs, _, _, _, _, hs⟩ := shopping_deduct_cases db uid amt act rid sid behs
    · exact .inl hs
    · exact .inr ⟨cb, hfs, by rw [hs]; rfl⟩

/-- C4: in both copies, whenever a run creates a `completed` ledger entry (it
then returns `true`), the stored balance afterwards is the balance before
minus the deducted amount, and the audit entry written alongside records
`previous_balance`/`new_balance` with `new_balance = previous_balance -
amount`; audit entries are created only on successful deductions (a `false`
run leaves the audit log unchanged). -/
theorem claim_C4_ledger_audit_invariant (db : DB) (uid : String) (amt : Rat)
    (act : String) (rid : Option String) (sid : String)
    (beh : StorageBehavior) (behs : Nat → StorageBehavior) :
    ((budget_deduct db uid amt act rid sid beh).1 = true →
      ∃ cb, findBalance db.users uid = some cb ∧
        (budget_deduct db uid amt act rid sid beh).2.ledger =
          db.ledger ++ [mkLedger uid act (-amt) rid sid .completed] ∧
        findBalance (budget_deduct db uid amt act rid sid beh).2.users uid =
          some (cb - amt) ∧
        (budget_deduct db uid amt act rid sid beh).2.audit =
          db.audit ++ [mkAudit uid act amt rid cb] ∧
        (mkAudit uid act amt rid cb).previous_balance = cb ∧
        (mkAudit uid act amt rid cb).new_balance =
          (mkAudit uid act amt rid cb).previous_balance -
            (mkAudit uid act amt rid cb).amount) ∧
    ((budget_deduct db uid amt act rid sid beh).1 = false →
      (budget_deduct db uid amt act rid sid beh).2.audit = db.audit) ∧
    ((shopping_deduct db uid amt act rid sid behs).1 = true →
      ∃ cb, findBalance db.users uid = some cb ∧
        (shopping_deduct db uid amt act rid sid behs).2.ledger =
          db.ledger ++
            [mkLedger uid act (-((pyInt amt : Int) : Rat)) rid sid .completed] ∧
        findBalance (shopping_deduct db uid amt act rid sid behs).2.users uid =
          some (cb - ((pyInt amt : Int) : Rat)) ∧
        (shopping_deduct db uid amt act rid sid behs).2.audit =
          db.audit ++ [mkAudit uid act ((pyInt amt : Int) : Rat) rid cb] ∧
        (mkAudit uid act ((pyInt amt : Int) : Rat) rid cb).new_balance =
          (mkAudit uid act ((pyInt amt : Int) : Rat) rid cb).previous_balance -
            (mkAudit uid act ((pyInt amt : Int) : Rat) rid cb).amount) ∧
    ((shopping_deduct db uid amt act rid sid behs).1 = false →
      (shopping_deduct db uid amt act rid sid behs).2.audit = db.audit) := by
  refine ⟨?_, ?_, ?_, ?_⟩
  · intro htrue
    obtain hb | ⟨cb, hfb, _, _, _, _, hb⟩ := budget_deduct_cases db uid amt act rid sid beh
    · rw [hb] at htrue; simp at htrue
    · exact ⟨cb, hfb, by rw [hb]; rfl,
        by rw [hb]; exact budgetSuccessDB_balance db uid amt act rid sid cb hfb,
        by rw [hb]; rfl, rfl, by simp [mkAudit]⟩
  · intro hfalse
    obtain hb | ⟨cb, hfb, _, _, _, _, hb⟩ := budget_deduct_cases db uid amt act rid sid beh
    · rw [hb]
    · rw [hb] at hfalse; simp at hfalse
  · intro htrue
    obtain hs | ⟨cb, hfs, _, _, _, _, hs⟩ := shopping_deduct_cases db uid amt act rid sid behs
    · rw [hs] at htrue; simp at htrue
    · exact ⟨cb, hfs, by rw [hs]; rfl,
        by rw [hs]; exact shoppingSuccessDB_balance db uid (pyInt amt) act rid sid cb hfs,
        by rw [hs]; rfl, by simp [mkAudit]⟩
  · intro hfalse
    obtain hs | ⟨cb, hfs, _, _, _, _, hs⟩ := shopping_deduct_cases db uid amt act rid sid behs
    · rw [hs]
    · rw [hs] at hfalse; simp at hfalse

/-- C7: both copies are total at their public interface: the embedded
functions return a boolean for every input and every storage outcome (the
source catches every exception at top level), and the run returns `true`
exactly on the success conditions — for the shopping copy the store must
behave normally on the first attempt, the only one that can commit — so
every failure kind (invalid input, user not found, insufficient balance, the
modified-zero race, a transient error on the first attempt and the ensuing
poisoned retry, permanent or unexpected storage errors) surfaces as
`false`. -/
theorem claim_C7_total_boolean_interface (db : DB) (uid : String) (amt : Rat)
    (act : String) (rid : Option String) (sid : String)
    (beh : StorageBehavior) (behs : Nat → StorageBehavior) :
    ((budget_deduct db uid amt act rid sid beh).1 = true ↔
      (uid ≠ "" ∧ 0 < amt ∧ ∃ cb, findBalance db.users uid = some cb ∧
        amt ≤ cb ∧ beh = .normal)) ∧
    ((shopping_deduct db uid amt act rid sid behs).1 = true ↔
      ((pyInt amt = 1 ∨ pyInt amt = 2) ∧ uid ≠ "" ∧
        ∃ cb, findBalance db.users uid = some cb ∧
          ((pyInt amt : Int) : Rat) ≤ cb ∧ behs 0 = .normal)) := by
  constructor
  · constructor
    · intro htrue
      obtain hb | ⟨cb, hfb, h1, h2, h4, hbeh, hb⟩ :=
        budget_deduct_cases db uid amt act rid sid beh
      · rw [hb] at htrue; simp at htrue
      · exact ⟨h1, h2, cb, hfb, h4, hbeh⟩
    · rintro ⟨h1, h2, cb, hfb, h4, rfl⟩
      rw [budget_deduct_success db uid amt act rid sid cb h1 h2 hfb h4]
  · constructor
    · intro htrue
      obtain hs | ⟨cb, hfs, h1, h2, h4, h5, hs⟩ :=
        shopping_deduct_cases db uid amt act rid sid behs
      · rw [hs] at htrue; simp at htrue
      · exact ⟨h1, h2, cb, hfs, h4, h5⟩
    · rintro ⟨h1, h2, cb, hfs, h4, h5⟩
      rw [shopping_deduct_success db uid amt act rid sid cb behs h1 h2 hfs h4 h5]

/-- C2 fails on the shopping copy: a call with a non-empty `user_id`, a
positive amount (3), an existing user whose balance (7) covers the amount and
a normally behaving store returns `false` and writes nothing, because the
shopping copy only accepts amounts whose integer truncation is 1 or 2. -/
theorem claim_C2_counterexample :
    ("u2" : String) ≠ "" ∧ (0 : Rat) < 3 ∧ findBalance exDB3.users "u2" = some 7 ∧
    (3 : Rat) ≤ 7 ∧
    shopping_deduct exDB3 "u2" 3 "pay" none "s" (fun _ => .normal) = (false, exDB3) := by
  have h3 : pyInt 3 = 3 := by norm_num [pyInt, Int.tdiv]
  refine ⟨by decide, by norm_num, by simp [findBalance, exDB3], by norm_num, ?_⟩
  simp [shopping_deduct, h3]

/-- C2 (amended): the claimed behaviour holds for the budget copy for every
positive amount; for the shopping copy it holds only when the amount's
integer truncation is 1 or 2 and the store behaves normally on the *first*
transaction attempt (a transient error there poisons the retry: the loop's
`finally` has ended the session, so no later attempt can commit), and the
deducted amount (balance decrement, ledger entry, audit entry) is the
truncation. -/
theorem claim_C2_amended_success_effects (db : DB) (uid : String) (amt : Rat)
    (act : String) (rid : Option String) (sid : String) (cb : Rat) :
    (uid ≠ "" → 0 < amt → findBalance db.users uid = some cb → amt ≤ cb →
      budget_deduct db uid amt act rid sid .normal =
        (true, { users := incAll db.users uid (-amt),
                 ledger := db.ledger ++ [mkLedger uid act (-amt) rid sid .completed],
                 audit := db.audit ++ [mkAudit uid act amt rid cb] }) ∧
      findBalance (budget_deduct db uid amt act rid sid .normal).2.users uid =
        some (cb - amt) ∧
      cb - amt < cb) ∧
    (∀ behs : Nat → StorageBehavior,
      (pyInt amt = 1 ∨ pyInt amt = 2) → uid ≠ "" →
      findBalance db.users uid = some cb → ((pyInt amt : Int) : Rat) ≤ cb →
      behs 0 = .normal →
      shopping_deduct db uid amt act rid sid behs =
        (true, { users := incAll db.users uid (-((pyInt amt : Int) : Rat)),
                 ledger := db.ledger ++
                   [mkLedger uid act (-((pyInt amt : Int) : Rat)) rid sid .completed],
                 audit := db.audit ++
                   [mkAudit uid act ((pyInt amt : Int) : Rat) rid cb] }) ∧
      findBalance (shopping_deduct db uid amt act rid sid behs).2.users uid =
        some (cb - ((pyInt amt : Int) : Rat)) ∧
      cb - ((pyInt amt : Int) : Rat) < cb) := by
  constructor
  · intro h1 h2 hf h4
    have hb := budget_deduct_success db uid amt act rid sid cb h1 h2 hf h4
    refine ⟨by rw [hb]; rfl, ?_, by linarith⟩
    rw [hb]
    exact budgetSuccessDB_balance db uid amt act rid sid cb hf
  · intro behs h1 h2 hf h4 h5
    have hs := shopping_deduct_success db uid amt act rid sid cb behs h1 h2 hf h4 h5
    have hpos : (0 : Rat) < ((pyInt amt : Int) : Rat) := by
      rcases h1 with h | h <;> rw [h] <;> norm_num
    refine ⟨by rw [hs]; rfl, ?_, by linarith⟩
    rw [hs]
    exact shoppingSuccessDB_balance db uid (pyInt amt) act rid sid cb hf

/-- C3 fails on the shopping copy: with balance 2.2 and requested amount 2.5
the current balance is below the amount, yet the call does not fail — the
`int()` coercion turns the amount into 2 before the balance check, the call
returns `true` and mutates the store. -/
theorem claim_C3_counterexample :
    (11 / 5 : Rat) < 5 / 2 ∧ findBalance exDB2.users "u1" = some (11 / 5) ∧
    (shopping_deduct exDB2 "u1" (5 / 2) "a" none "s" (fun _ => .normal)).1 = true ∧
    (shopping_deduct exDB2 "u1" (5 / 2) "a" none "s" (fun _ => .normal)).2 ≠ exDB2 := by
  have h2 : pyInt (5 / 2) = 2 := by norm_num [pyInt, Int.tdiv]
  have hf : findBalance exDB2.users "u1" = some (11 / 5) := by simp [findBalance, exDB2]
  have hs := shopping_deduct_success exDB2 "u1" (5 / 2) "a" none "s" (11 / 5)
    (fun _ => .normal) (by rw [h2]; right; rfl) (by decide) hf
    (by rw [h2]; norm_num) rfl
  rw [h2] at hs
  refine ⟨by norm_num, hf, by rw [hs], by rw [hs]; simp [shoppingSuccessDB, exDB2]⟩

/-- C3 (amended): every precondition failure — empty `user_id`, amount ≤ 0,
user not found, or current balance below the *effective* amount (for the
shopping copy the effective amount is the `int()` truncation of the requested
amount) — returns `false` with the store untouched, and repeating a call on a
missing user fails again independently with no stored side effects. -/
theorem claim_C3_amended_precondition_failures (db : DB) (uid : String)
    (amt : Rat) (act : String) (rid : Option String) (sid : String)
    (beh : StorageBehavior) (behs : Nat → StorageBehavior) :
    ((uid = "" ∨ amt ≤ 0 ∨ findBalance db.users uid = none ∨
        (∃ cb, findBalance db.users uid = some cb ∧ cb < amt)) →
      budget_deduct db uid amt act rid sid beh = (false, db)) ∧
    ((¬(pyInt amt = 1 ∨ pyInt amt = 2) ∨ amt ≤ 0 ∨ uid = "" ∨
        findBalance db.users uid = none ∨
        (∃ cb, findBalance db.users uid = some cb ∧
          cb < ((pyInt amt : Int) : Rat))) →
      shopping_deduct db uid amt act rid sid behs = (false, db)) ∧
    (findBalance db.users uid = none →
      budget_deduct db uid amt act rid sid beh = (false, db) ∧
      budget_deduct (budget_deduct db uid amt act rid sid beh).2 uid amt act rid
        sid beh = (false, db) ∧
      shopping_deduct db uid amt act rid sid behs = (false, db) ∧
      shopping_deduct (shopping_deduct db uid amt act rid sid behs).2 uid amt act
        rid sid behs = (false, db)) := by
  have hbudget : (uid = "" ∨ amt ≤ 0 ∨ findBalance db.users uid = none ∨
      (∃ cb, findBalance db.users uid = some cb ∧ cb < amt)) →
      budget_deduct db uid amt act rid sid beh = (false, db) := by
    intro h
    obtain hb | ⟨cb, hfb, h1, h2, h4, _, _⟩ :=
      budget_deduct_cases db uid amt act rid sid beh
    · exact hb
    · rcases h with h | h | h | ⟨cb', hcb', hlt⟩
      · exact absurd h h1
      · linarith
      · rw [hfb] at h; cases h
      · rw [hfb] at hcb'
        injection hcb' with hcb'
        subst hcb'
        linarith
  have hshopping : (¬(pyInt amt = 1 ∨ pyInt amt = 2) ∨ amt ≤ 0 ∨ uid = "" ∨
      findBalance db.users uid = none ∨
      (∃ cb, findBalance db.users uid = some cb ∧
        cb < ((pyInt amt : Int) : Rat))) →
      shopping_deduct db uid amt act rid sid behs = (false, db) := by
    intro h
    obtain hs | ⟨cb, hfs, h1, h2, h4, _, _⟩ :=
      shopping_deduct_cases db uid amt act rid sid behs
    · exact hs
    · rcases h with h | h | h | h | ⟨cb', hcb', hlt⟩
      · exact absurd h1 h
      · have := pyInt_nonpos amt h
        rcases h1 with h1 | h1 <;> omega
      · exact absurd h h2
      · rw [hfs] at h; cases h
      · rw [hfs] at hcb'
        injection hcb' with hcb'
        subst hcb'
        linarith
  refine ⟨hbudget, hshopping, ?_⟩
  intro hnone
  have hb1 := hbudget (Or.inr (Or.inr (Or.inl hnone)))
  have hs1 := hshopping (Or.inr (Or.inr (Or.inr (Or.inl hnone))))
  refine ⟨hb1, ?_, hs1, ?_⟩
  · rw [hb1]
    exact hbudget (Or.inr (Or.inr (Or.inl hnone)))
  · rw [hs1]
    exact hshopping (Or.inr (Or.inr (Or.inr (Or.inl hnone))))

/-- C5 fails on its last conjunct: when the decrement modifies zero records
(the race window, behaviour `vanished`) both copies return `false`, but the
`failed` ledger entry is not observable afterwards — it was inserted with the
transaction's session and the abort rolled it back, so the store (ledger
included) is exactly as before the call. -/
theorem claim_C5_counterexample :
    budget_deduct exDB "u1" 2 "a" none "s" .vanished = (false, exDB) ∧
    shopping_deduct exDB "u1" 2 "a" none "s" (fun _ => .vanished) = (false, exDB) ∧
    exDB.ledger = [] := by
  have h2 : pyInt 2 = 2 := by norm_num [pyInt, Int.tdiv]
  have hu : ("u1" : String) ≠ "" := by decide
  refine ⟨?_, ?_, rfl⟩
  · norm_num [budget_deduct, budget_txBody, findBalance, exDB, hu]
  · norm_num [shopping_deduct, shopping_tryAttempts, shopping_txBody, h2,
      findBalance, exDB, max_retries, hu]

/-- C5 (amended): when the decrement modifies zero records, both copies do
insert a `failed` ledger entry *inside* the transaction and then abort it (the
raised `ValueError`), so the call returns `false`, the abort rolls the insert
back, and the store afterwards is unchanged — the `failed` entry is not
observable. The uncommitted transaction buffer (carried in the abort) is
exactly the old store plus that one `failed` entry. -/
theorem claim_C5_amended_failed_entry_rolled_back (db : DB) (uid : String)
    (amt : Rat) (act : String) (rid : Option String) (sid : String) :
    budget_txBody db uid amt act rid sid .vanished =
      .error (.valueError,
        { db with ledger := db.ledger ++ [mkLedger uid act (-amt) rid sid .failed] }) ∧
    budget_deduct db uid amt act rid sid .vanished = (false, db) ∧
    (∀ amtI : Int, shopping_txBody db uid amtI act rid sid .vanished =
      .error (.valueError,
        { db with ledger := db.ledger ++
            [mkLedger uid act (-(amtI : Rat)) rid sid .failed] })) ∧
    shopping_deduct db uid amt act rid sid (fun _ => .vanished) = (false, db) := by
  refine ⟨rfl, ?_, fun _ => rfl, ?_⟩
  · obtain hb | ⟨_, _, _, _, _, hbeh, _⟩ :=
      budget_deduct_cases db uid amt act rid sid .vanished
    · exact hb
    · cases hbeh
  · obtain hs | ⟨_, _, _, _, _, h5, _⟩ :=
      shopping_deduct_cases db uid amt act rid sid (fun _ => .vanished)
    · exact hs
    · simp at h5

/-- C6 fails for both copies: the budget copy aborts at the first transient
error and returns `false` without any retry, and the shopping copy, under a
schedule where the store recovers after one transient write conflict, also
returns `false` with no writes — its retry iteration runs on the session the
loop's `finally` block has already ended, so the mutation is never retried to
a second real attempt, let alone three. -/
theorem claim_C6_counterexample :
    budget_deduct exDB "u1" 1 "a" none "s" .transient = (false, exDB) ∧
    shopping_deduct exDB "u1" 1 "a" none "s"
      (fun n => if n = 0 then .transient else .normal) = (false, exDB) := by
  have h1 : pyInt 1 = 1 := by norm_num [pyInt, Int.tdiv]
  have hu : ("u1" : String) ≠ "" := by decide
  constructor
  · norm_num [budget_deduct, budget_txBody, findBalance, exDB, hu]
  · norm_num [shopping_deduct, shopping_tryAttempts, shopping_txBody, h1,
      findBalance, exDB, max_retries, hu]

/-- C6 (amended): neither copy ever successfully retries.  The budget copy
has no retry loop: any storage behaviour other than `normal` — the transient
kind included — makes its single attempt abort and the call return `false`.
The shopping copy's loop does re-enter after a transient first attempt, but
the loop's `finally` block has already ended the owned session, so every
retry iteration fails immediately at `start_transaction` with a
`PyMongoError`; consequently any first-attempt outcome other than a normal
commit — transient or not — makes the call return `false`, and only the
first attempt can ever commit. -/
theorem claim_C6_amended_retry_policy (db : DB) (uid : String) (amt : Rat)
    (act : String) (rid : Option String) (sid : String) :
    (∀ beh : StorageBehavior, beh ≠ .normal →
      budget_deduct db uid amt act rid sid beh = (false, db)) ∧
    (∀ (amtI : Int) (behs : Nat → StorageBehavior) (attempt rem : Nat),
      shopping_tryAttempts db uid amtI act rid sid behs true attempt (rem + 1) =
        (false, db)) ∧
    (∀ behs : Nat → StorageBehavior, behs 0 ≠ .normal →
      shopping_deduct db uid amt act rid sid behs = (false, db)) := by
  refine ⟨?_, ?_, ?_⟩
  · intro beh hne
    obtain hb | ⟨_, _, _, _, _, hbeh, _⟩ :=
      budget_deduct_cases db uid amt act rid sid beh
    · exact hb
    · exact absurd hbeh hne
  · intro amtI behs attempt rem
    simp [shopping_tryAttempts]
  · intro behs hne
    obtain hs | ⟨_, _, _, _, _, h5, _⟩ :=
      shopping_deduct_cases db uid amt act rid sid behs
    · exact hs
    · exact absurd h5 hne

/-- One deduction call preserves per-user balance non-negativity: a successful
deduction is guarded by the balance pre-check, a failed one leaves the store
unchanged. -/
theorem applyCall_nonneg (db : DB) (c : DeductCall) (u : String)
    (h : ∀ b, findBalance db.users u = some b → 0 ≤ b) :
    ∀ b, findBalance (applyCall db c).users u = some b → 0 ≤ b := by
  cases c with
  | budget uid amt act bid sid beh =>
    obtain hb | ⟨cb, hfb, _, _, h4, _, hb⟩ :=
      budget_deduct_cases db uid amt act bid sid beh
    · simpa [applyCall, hb] using h
    · intro b hbal
      by_cases hu : u = uid
      · subst hu
        rw [applyCall, hb] at hbal
        rw [budgetSuccessDB_balance db u amt act bid sid cb hfb] at hbal
        injection hbal with hbal
        rw [← hbal]
        linarith [h cb hfb]
      · rw [applyCall, hb] at hbal
        rw [budgetSuccessDB] at hbal
        simp only at hbal
        rw [findBalance_incAll_ne db.users uid u (-amt) hu] at hbal
        exact h b hbal
  | shopping uid amt act iid sid behs =>
    obtain hs | ⟨cb, hfs, _, _, h4, _, hs⟩ :=
      shopping_deduct_cases db uid amt act iid sid behs
    · simpa [applyCall, hs] using h
    · intro b hbal
      by_cases hu : u = uid
      · subst hu
        rw [applyCall, hs] at hbal
        rw [shoppingSuccessDB_balance db u (pyInt amt) act iid sid cb hfs] at hbal
        injection hbal with hbal
        rw [← hbal]
        linarith [h cb hfs]
      · rw [applyCall, hs] at hbal
        rw [shoppingSuccessDB] at hbal
        simp only at hbal
        rw [findBalance_incAll_ne db.users uid u (-((pyInt amt : Int) : Rat)) hu] at hbal
        exact h b hbal

/-- Balance non-negativity of one user is an invariant of any sequential run
of deduction calls. -/
theorem runCalls_nonneg (u : String) (calls : List DeductCall) :
    ∀ db : DB, (∀ b, findBalance db.users u = some b → 0 ≤ b) →
      ∀ b1, findBalance (runCalls db calls).users u = some b1 → 0 ≤ b1 := by
  induction calls with
  | nil => intro db h; simpa [runCalls] using h
  | cons c cs ih =>
    intro db h
    simp only [runCalls]
    exact ih (applyCall db c) (applyCall_nonneg db c u h)

/-- C8: along any sequential run of deduction calls (either copy, any
arguments, any storage behaviours), a user who starts with a non-negative
balance never has a negative balance afterwards: every successful deduction
is guarded by the balance ≥ amount pre-check, and every failed one leaves the
balance unchanged. -/
theorem claim_C8_balance_never_negative (calls : List DeductCall) (db : DB)
    (u : String) (b0 : Rat) (h0 : findBalance db.users u = some b0)
    (hb0 : 0 ≤ b0) :
    ∀ b1, findBalance (runCalls db calls).users u = some b1 → 0 ≤ b1 := by
  refine runCalls_nonneg u calls db ?_
  intro b hb
  rw [h0] at hb
  injection hb with hb
  rw [hb] at hb0
  exact hb0

/-- C9 fails on the shopping copy: a deduction of amount 3 against balance 5
with an existing user, a non-empty `user_id` and a normal store is rejected —
the shopping copy accepts only amounts whose truncation is 1 or 2 — so
`deduct_ficore_credits` does not accept every positive amount. -/
theorem claim_C9_counterexample :
    (0 : Rat) < 3 ∧ ("u9" : String) ≠ "" ∧ findBalance exDB9.users "u9" = some 5 ∧
    (3 : Rat) ≤ 5 ∧
    shopping_deduct exDB9 "u9" 3 "a" none "s" (fun _ => .normal) = (false, exDB9) := by
  have h3 : pyInt 3 = 3 := by norm_num [pyInt, Int.tdiv]
  refine ⟨by norm_num, by decide, by simp [findBalance, exDB9], by norm_num, ?_⟩
  simp [shopping_deduct, h3]

/-- C9 (amended): the budget copy accepts any positive amount — with a
non-empty `user_id`, an existing user, sufficient balance and a normal store,
a deduction of any amount > 0 (3 against 5 included) succeeds; the shopping
copy instead rejects, before any mutation, every amount whose integer
truncation is not 1 or 2, and accepts only amounts truncating to 1 or 2
(succeeding when the store behaves normally on the first attempt, the only
attempt that can commit). -/
theorem claim_C9_amended_accepted_amounts (db : DB) (uid : String) (amt : Rat)
    (act : String) (rid : Option String) (sid : String) (cb : Rat) :
    (uid ≠ "" → 0 < amt → findBalance db.users uid = some cb → amt ≤ cb →
      (budget_deduct db uid amt act rid sid .normal).1 = true) ∧
    (¬(pyInt amt = 1 ∨ pyInt amt = 2) →
      ∀ behs : Nat → StorageBehavior,
        shopping_deduct db uid amt act rid sid behs = (false, db)) ∧
    (∀ behs : Nat → StorageBehavior,
      (pyInt amt = 1 ∨ pyInt amt = 2) → uid ≠ "" →
      findBalance db.users uid = some cb → ((pyInt amt : Int) : Rat) ≤ cb →
      behs 0 = .normal →
      (shopping_deduct db uid amt act rid sid behs).1 = true) := by
  refine ⟨?_, ?_, ?_⟩
  · intro h1 h2 hf h4
    rw [budget_deduct_success db uid amt act rid sid cb h1 h2 hf h4]
  · intro hbad behs
    simp [shopping_deduct, hbad]
  · intro behs h1 h2 hf h4 h5
    rw [shopping_deduct_success db uid amt act rid sid cb behs h1 h2 hf h4 h5]

/-- C10: in the shopping copy the amount is coerced with `int()` before any
validation or mutation: an amount whose truncation is 1 or 2 (such as 1.5)
passes validation and, on success (the store behaving normally on the first
attempt, the only one that can commit), the truncated integer amount — not
the requested amount — is deducted from the balance and recorded in the
ledger and audit entries; every amount whose truncation lies outside {1, 2}
is rejected with `false` and no mutation. -/
theorem claim_C10_shopping_truncates_amount (db : DB) (uid : String)
    (amt : Rat) (act : String) (iid : Option String) (sid : String)
    (behs : Nat → StorageBehavior) (cb : Rat) :
    ((pyInt amt = 1 ∨ pyInt amt = 2) → uid ≠ "" →
      findBalance db.users uid = some cb → ((pyInt amt : Int) : Rat) ≤ cb →
      behs 0 = .normal →
      shopping_deduct db uid amt act iid sid behs =
        (true, shoppingSuccessDB db uid (pyInt amt) act iid sid cb) ∧
      findBalance (shopping_deduct db uid amt act iid sid behs).2.users uid =
        some (cb - ((pyInt amt : Int) : Rat))) ∧
    (¬(pyInt amt = 1 ∨ pyInt amt = 2) →
      shopping_deduct db uid amt act iid sid behs = (false, db)) := by
  constructor
  · intro h1 h2 hf h4 h5
    have hs := shopping_deduct_success db uid amt act iid sid cb behs h1 h2 hf h4 h5
    refine ⟨hs, ?_⟩
    rw [hs]
    exact shoppingSuccessDB_balance db uid (pyInt amt) act iid sid cb hf
  · intro hbad
    simp [shopping_deduct, hbad]

/-! ## Witnesses: the claims' hypotheses are satisfiable on concrete stores -/

/-- Witness for C2 (amended): budget deducts 3 from 5 leaving 2; shopping
deducts the truncation 1 of 1.5 from 5 leaving 4. -/
theorem claim_C2_amended_witness :
    findBalance (budget_deduct exDB "u1" 3 "x" none "s" .normal).2.users "u1" =
      some 2 ∧
    findBalance (shopping_deduct exDB "u1" (3/2) "x" none "s"
      (fun _ => .normal)).2.users "u1" = some 4 := by
  have h1 : pyInt (3/2) = 1 := by norm_num [pyInt, Int.tdiv]
  have hb := (claim_C2_amended_success_effects exDB "u1" 3 "x" none "s" 5).1
    (by decide) (by norm_num) (by simp [findBalance, exDB]) (by norm_num)
  have hs := (claim_C2_amended_success_effects exDB "u1" (3/2) "x" none "s" 5).2
    (fun _ => .normal) (Or.inl h1) (by decide) (by simp [findBalance, exDB])
    (by rw [h1]; norm_num) rfl
  constructor
  · rw [hb.2.1]; norm_num
  · rw [hs.2.1, h1]; norm_num

/-- Witness for C3 (amended): a nonpositive amount is rejected; a missing
user fails twice with no side effects, in both copies. -/
theorem claim_C3_amended_witness :
    budget_deduct exDB "u1" 0 "x" none "s" .normal = (false, exDB) ∧
    budget_deduct exDB "nouser" 1 "x" none "s" .normal = (false, exDB) ∧
    budget_deduct (budget_deduct exDB "nouser" 1 "x" none "s" .normal).2
      "nouser" 1 "x" none "s" .normal = (false, exDB) ∧
    shopping_deduct (shopping_deduct exDB "nouser" 1 "x" none "s"
      (fun _ => .normal)).2 "nouser" 1 "x" none "s" (fun _ => .normal) =
      (false, exDB) := by
  have hnone : findBalance exDB.users "nouser" = none := by
    simp [findBalance, exDB, show ("u1" : String) ≠ "nouser" from by decide]
  have h0 := (claim_C3_amended_precondition_failures exDB "u1" 0 "x" none "s"
    .normal (fun _ => .normal)).1 (Or.inr (Or.inl (by norm_num)))
  have hrep := (claim_C3_amended_precondition_failures exDB "nouser" 1 "x" none "s"
    .normal (fun _ => .normal)).2.2 hnone
  exact ⟨h0, hrep.1, hrep.2.1, hrep.2.2.2⟩

/-- Witness for C4: a successful budget deduction of 3 from 5 shows the
ledger/audit invariant at a concrete store; a rejected shopping call leaves
the audit log unchanged. -/
theorem claim_C4_witness :
    (∃ cb, findBalance exDB.users "u1" = some cb ∧
      (budget_deduct exDB "u1" 3 "x" none "s" .normal).2.ledger =
        exDB.ledger ++ [mkLedger "u1" "x" (-3) none "s" .completed] ∧
      findBalance (budget_deduct exDB "u1" 3 "x" none "s" .normal).2.users "u1" =
        some (cb - 3) ∧
      (budget_deduct exDB "u1" 3 "x" none "s" .normal).2.audit =
        exDB.audit ++ [mkAudit "u1" "x" 3 none cb] ∧
      (mkAudit "u1" "x" 3 none cb).previous_balance = cb ∧
      (mkAudit "u1" "x" 3 none cb).new_balance =
        (mkAudit "u1" "x" 3 none cb).previous_balance -
          (mkAudit "u1" "x" 3 none cb).amount) ∧
    (shopping_deduct exDB "u1" 3 "x" none "s" (fun _ => .normal)).2.audit =
      exDB.audit := by
  have h3 : pyInt 3 = 3 := by norm_num [pyInt, Int.tdiv]
  have h := claim_C4_ledger_audit_invariant exDB "u1" 3 "x" none "s" .normal
    (fun _ => .normal)
  constructor
  · refine h.1 ?_
    rw [budget_deduct_success exDB "u1" 3 "x" none "s" 5 (by decide) (by norm_num)
      (by simp [findBalance, exDB]) (by norm_num)]
  · refine h.2.2.2 ?_
    simp [shopping_deduct, h3]

/-- Witness for C6 (amended): a non-normal behaviour fails the budget copy; a
retry iteration (ended session) fails immediately whatever the storage would
do; a transient first attempt and a non-transient first attempt both fail the
shopping copy even though the store recovers afterwards. -/
theorem claim_C6_amended_witness :
    budget_deduct exDB "u1" 1 "a" none "s" .unexpected = (false, exDB) ∧
    shopping_tryAttempts exDB "u1" 1 "a" none "s" (fun _ => .normal) true 1 2 =
      (false, exDB) ∧
    shopping_deduct exDB "u1" 1 "a" none "s"
      (fun n => if n = 0 then .transient else .normal) = (false, exDB) ∧
    shopping_deduct exDB "u1" 1 "a" none "s"
      (fun n => if n = 0 then .opFailure else .normal) = (false, exDB) := by
  have h := claim_C6_amended_retry_policy exDB "u1" 1 "a" none "s"
  exact ⟨h.1 .unexpected (by decide), h.2.1 1 (fun _ => .normal) 1 1,
    h.2.2 (fun n => if n = 0 then .transient else .normal) (by simp),
    h.2.2 (fun n => if n = 0 then .opFailure else .normal) (by simp)⟩

/-- Witness for C7: both success conditions are satisfiable — a deduction of
2 from balance 5 with a normal store returns `true` in both copies. -/
theorem claim_C7_witness :
    (budget_deduct exDB "u1" 2 "x" none "s" .normal).1 = true ∧
    (shopping_deduct exDB "u1" 2 "x" none "s" (fun _ => .normal)).1 = true := by
  have h2 : pyInt 2 = 2 := by norm_num [pyInt, Int.tdiv]
  have h := claim_C7_total_boolean_interface exDB "u1" 2 "x" none "s" .normal
    (fun _ => .normal)
  exact ⟨h.1.mpr ⟨by decide, by norm_num, 5, by simp [findBalance, exDB],
      by norm_num, rfl⟩,
    h.2.mpr ⟨Or.inr h2, by decide, 5, by simp [findBalance, exDB],
      by rw [h2]; norm_num, rfl⟩⟩

/-- Witness for C8: after a budget deduction of 3 from 5, the remaining
balance of the user is non-negative. -/
theorem claim_C8_witness : (0 : Rat) ≤ 2 := by
  refine claim_C8_balance_never_negative
    [DeductCall.budget "u1" 3 "x" none "s" .normal] exDB "u1" 5
    (by simp [findBalance, exDB]) (by norm_num) 2 ?_
  have hb := budget_deduct_success exDB "u1" 3 "x" none "s" 5 (by decide)
    (by norm_num) (by simp [findBalance, exDB]) (by norm_num)
  have hbal := budgetSuccessDB_balance exDB "u1" 3 "x" none "s" 5
    (by simp [findBalance, exDB])
  rw [runCalls, runCalls, applyCall, hb]
  rw [hbal]
  norm_num

/-- Witness for C9 (amended): the budget copy accepts 3 against balance 5;
the shopping copy rejects the same call. -/
theorem claim_C9_amended_witness :
    (budget_deduct exDB9 "u9" 3 "x" none "s" .normal).1 = true ∧
    shopping_deduct exDB9 "u9" 3 "x" none "s" (fun _ => .normal) = (false, exDB9) := by
  have h := claim_C9_amended_accepted_amounts exDB9 "u9" 3 "x" none "s" 5
  exact ⟨h.1 (by decide) (by norm_num) (by simp [findBalance, exDB9]) (by norm_num),
    h.2.1 (by norm_num [pyInt, Int.tdiv]) (fun _ => .normal)⟩

/-- Witness for C10: amount 1.5 passes validation and deducts 1 (balance 5
becomes 4, not 3.5); amount 7 is rejected. -/
theorem claim_C10_witness :
    findBalance (shopping_deduct exDB "u1" (3/2) "x" none "s"
      (fun _ => .normal)).2.users "u1" = some 4 ∧
    (4 : Rat) ≠ 5 - 3/2 ∧
    shopping_deduct exDB "u1" 7 "x" none "s" (fun _ => .normal) = (false, exDB) := by
  have h1 : pyInt (3/2) = 1 := by norm_num [pyInt, Int.tdiv]
  have h := claim_C10_shopping_truncates_amount exDB "u1" (3/2) "x" none "s"
    (fun _ => .normal) 5
  have h7 := claim_C10_shopping_truncates_amount exDB "u1" 7 "x" none "s"
    (fun _ => .normal) 5
  have hres := (h.1 (Or.inl h1) (by decide) (by simp [findBalance, exDB])
    (by rw [h1]; norm_num) rfl).2
  refine ⟨?_, by norm_num, h7.2 (by norm_num [pyInt, Int.tdiv])⟩
  rw [hres, h1]
  norm_num

end FicoreCredits
